import Mathlib

/-!
Verification of the "Hey Jubilee" wake-word listener
(`src/scripts/hey_jubilee.py`).

The script is a sequential event loop: it pulls one audio frame at a time,
feeds it to a keyword detector, and — when the detector reports a match —
invokes a hotkey action, debounced so that at most one invocation happens
per `DEBOUNCE_SECONDS` window.  We embed the loop body, the keyword-model
selection logic, the initialization/teardown control flow of `main`, and
the `finally` cleanup block as pure Lean functions, and prove the spec's
claims about them.

Times are modelled as rationals (the Python code uses `time.time()`
floats; none of the claims depend on floating-point rounding).
-/

namespace HeyJubilee

/-- `DEBOUNCE_SECONDS = 2.0` from the configuration section of the script. -/
def DEBOUNCE_SECONDS : ℚ := 2

/-- One iteration's worth of detector input: the index returned by
`porcupine.process(audio_frame)` (negative means "no match") and the value
`time.time()` would return at that iteration. -/
structure DetectionEvent where
  keywordIndex : Int
  time : ℚ
  deriving DecidableEq, Repr

/-- The loop's mutable state: `last_trigger_time`, plus (for specification
purposes) the list of times at which `on_wake_word_detected()` has been
invoked, in order. -/
structure LoopState where
  last_trigger_time : ℚ
  fired : List ℚ
  deriving DecidableEq, Repr

/-- The body of the `while True` loop (lines 207–215 of the script):
if `keyword_index >= 0` and `current_time - last_trigger_time >
DEBOUNCE_SECONDS`, set `last_trigger_time = current_time` and invoke the
action; otherwise do nothing. -/
def loopStep (s : LoopState) (e : DetectionEvent) : LoopState :=
  if 0 ≤ e.keywordIndex then
    if DEBOUNCE_SECONDS < e.time - s.last_trigger_time then
      { last_trigger_time := e.time, fired := s.fired ++ [e.time] }
    else s
  else s

/-- The state the loop starts in: `last_trigger_time = 0` (line 204) and no
invocations yet. -/
def initState : LoopState := { last_trigger_time := 0, fired := [] }

/-- Running the loop over a finite sequence of detection events. -/
def runLoop (es : List DetectionEvent) : LoopState :=
  es.foldl loopStep initState

/-- Invariant carried through the loop: the fired times are pairwise more
than the debounce interval apart, and `last_trigger_time` is an upper
bound witnessing that the next eligible fire is > debounce past each of
them. -/
def DebounceInv (s : LoopState) : Prop :=
  s.fired.Pairwise (fun a b => DEBOUNCE_SECONDS < b - a) ∧
  ∀ t ∈ s.fired, s.last_trigger_time = t ∨
    DEBOUNCE_SECONDS < s.last_trigger_time - t

lemma debounceInv_init : DebounceInv initState := by
  constructor
  · simp [initState]
  · simp [initState]

lemma debounceInv_step (s : LoopState) (e : DetectionEvent)
    (h : DebounceInv s) : DebounceInv (loopStep s e) := by
  unfold loopStep
  split
  · split
    · rename_i hgt
      obtain ⟨hpw, hub⟩ := h
      constructor
      · rw [List.pairwise_append]
        refine ⟨hpw, by simp, ?_⟩
        intro a ha b hb
        simp at hb
        subst hb
        rcases hub a ha with heq | hlt
        · rw [← heq]; exact hgt
        · have h2 : (0 : ℚ) ≤ DEBOUNCE_SECONDS := by norm_num [DEBOUNCE_SECONDS]
          have : DEBOUNCE_SECONDS + DEBOUNCE_SECONDS <
              (e.time - s.last_trigger_time) + (s.last_trigger_time - a) :=
            add_lt_add hgt hlt
          simp only [sub_add_sub_cancel] at this
          linarith
      · intro t ht
        simp only [List.mem_append, List.mem_singleton] at ht
        rcases ht with ht | ht
        · right
          rcases hub t ht with heq | hlt
          · rw [← heq]; exact hgt
          · have : DEBOUNCE_SECONDS + DEBOUNCE_SECONDS <
                (e.time - s.last_trigger_time) + (s.last_trigger_time - t) :=
              add_lt_add hgt hlt
            simp only [sub_add_sub_cancel] at this
            have h2 : (0 : ℚ) ≤ DEBOUNCE_SECONDS := by norm_num [DEBOUNCE_SECONDS]
            linarith
        · left; simp [ht]
    · exact h
  · exact h

lemma debounceInv_foldl (es : List DetectionEvent) (s : LoopState)
    (h : DebounceInv s) : DebounceInv (es.foldl loopStep s) := by
  induction es generalizing s with
  | nil => exact h
  | cons e es ih => exact ih _ (debounceInv_step s e h)

/-- **C1.** For every sequence of detection events, the times at which the
wake-word action fires are pairwise separated by strictly more than
`DEBOUNCE_SECONDS` of loop-observed time: between any two invocations more
than the debounce interval elapses, no matter how many match detections
occur in between. -/
theorem action_fires_at_most_once_per_debounce_window
    (es : List DetectionEvent) :
    (runLoop es).fired.Pairwise (fun a b => DEBOUNCE_SECONDS < b - a) :=
  (debounceInv_foldl es initState debounceInv_init).1

/-- **C2.** On a match event (`keyword_index >= 0`): if the elapsed time
since `last_trigger_time` is strictly greater than the debounce interval
the action fires exactly once and `last_trigger_time` is updated; if the
elapsed time is less than or equal to the interval (equality at the
boundary included) the event is suppressed with no effect; and for two
consecutive matches each eligible by strict excess, both fire. -/
theorem match_event_debounce_decision (s : LoopState) (e : DetectionEvent)
    (hm : 0 ≤ e.keywordIndex) :
    (DEBOUNCE_SECONDS < e.time - s.last_trigger_time →
      loopStep s e =
        { last_trigger_time := e.time, fired := s.fired ++ [e.time] }) ∧
    (e.time - s.last_trigger_time ≤ DEBOUNCE_SECONDS → loopStep s e = s) ∧
    (∀ e' : DetectionEvent, 0 ≤ e'.keywordIndex →
      DEBOUNCE_SECONDS < e.time - s.last_trigger_time →
      DEBOUNCE_SECONDS < e'.time - e.time →
      (loopStep (loopStep s e) e').fired = s.fired ++ [e.time, e'.time]) := by
  refine ⟨?_, ?_, ?_⟩
  · intro hgt
    simp [loopStep, hm, hgt]
  · intro hle
    simp [loopStep, hm, not_lt.mpr hle]
  · intro e' hm' hgt hgt'
    simp [loopStep, hm, hm', hgt, hgt']

/-- Witness for C2: with `last_trigger_time = 0`, a match at `t = 3` fires
(3 − 0 > 2), a match at `t = 2` is suppressed (2 − 0 ≤ 2), and matches at
`t = 3` then `t = 6` both fire. -/
theorem match_event_debounce_decision_witness :
    (loopStep ⟨0, []⟩ ⟨0, 3⟩ = ⟨3, [3]⟩) ∧
    (loopStep ⟨0, []⟩ ⟨0, 2⟩ = ⟨0, []⟩) ∧
    ((loopStep (loopStep ⟨0, []⟩ ⟨0, 3⟩) ⟨0, 6⟩).fired = [3, 6]) := by
  have h1 := match_event_debounce_decision ⟨0, []⟩ ⟨0, 3⟩ (by decide)
  have h2 := match_event_debounce_decision ⟨0, []⟩ ⟨0, 2⟩ (by decide)
  refine ⟨?_, ?_, ?_⟩
  · simpa using h1.1 (by norm_num [DEBOUNCE_SECONDS])
  · simpa using h2.2.1 (by norm_num [DEBOUNCE_SECONDS])
  · simpa using h1.2.2 ⟨0, 6⟩ (by decide) (by norm_num [DEBOUNCE_SECONDS])
      (by norm_num [DEBOUNCE_SECONDS])

/-- **C3 counterexample.** Taking the scenario's timestamps literally as
the loop-observed clock values, match events at t = 0.0, 1.0, 2.1 do NOT
fire at t = 0.0 and t = 2.1: since `last_trigger_time` starts at 0, the
event at t = 0.0 has elapsed 0 ≤ 2.0 and is suppressed, so only t = 2.1
fires. -/
theorem suppressed_match_scenario_literal_fails :
    (runLoop [⟨0, 0⟩, ⟨0, 1⟩, ⟨0, 21/10⟩]).fired ≠ [0, 21/10] := by
  norm_num [runLoop, loopStep, initState, DEBOUNCE_SECONDS]

/-- **C3 (amended).** A match event suppressed by the debounce check has
no effect at all — the state (both `last_trigger_time` and the invocation
record) is unchanged; and in the spec's scenario shifted so the first
match is eligible (debounce 2.0, matches at t = 10.0, 11.0, 12.1), the
action fires at t = 10.0 and t = 12.1 only: the suppressed event at
t = 11.0 does not reset or extend the debounce window. -/
theorem suppressed_match_has_no_effect :
    (∀ (s : LoopState) (e : DetectionEvent), 0 ≤ e.keywordIndex →
      e.time - s.last_trigger_time ≤ DEBOUNCE_SECONDS → loopStep s e = s) ∧
    (runLoop [⟨0, 10⟩, ⟨0, 11⟩, ⟨0, 121/10⟩]).fired = [10, 121/10] := by
  constructor
  · intro s e hm hle
    simp [loopStep, hm, not_lt.mpr hle]
  · norm_num [runLoop, loopStep, initState, DEBOUNCE_SECONDS]

/-- Witness for C3 (amended): a match at `t = 1` against
`last_trigger_time = 0` (elapsed 1 ≤ 2) leaves the state untouched. -/
theorem suppressed_match_has_no_effect_witness :
    loopStep ⟨0, [0]⟩ ⟨0, 1⟩ = ⟨0, [0]⟩ :=
  suppressed_match_has_no_effect.1 ⟨0, [0]⟩ ⟨0, 1⟩ (by decide)
    (by norm_num [DEBOUNCE_SECONDS])

lemma loopStep_no_match (s : LoopState) (e : DetectionEvent)
    (h : e.keywordIndex < 0) : loopStep s e = s := by
  simp [loopStep, not_le.mpr h]

lemma fired_mem_foldl (es : List DetectionEvent) (s : LoopState) (t : ℚ)
    (h : t ∈ s.fired) : t ∈ (es.foldl loopStep s).fired := by
  induction es generalizing s with
  | nil => exact h
  | cons e es ih =>
    apply ih
    unfold loopStep
    split
    · split
      · simp [h]
      · exact h
    · exact h

/-- **C4.** `last_trigger_time` is initialized to 0, and consequently the
first match event always fires, for every event sequence, provided the
loop-observed time at that first match exceeds the (positive) debounce
interval: if every event before `e` is a non-match and `e` is a match at a
time greater than `DEBOUNCE_SECONDS`, then `e.time` is among the fired
times. -/
theorem first_match_always_fires
    (pre post : List DetectionEvent) (e : DetectionEvent)
    (hpre : ∀ e' ∈ pre, e'.keywordIndex < 0)
    (hm : 0 ≤ e.keywordIndex)
    (ht : DEBOUNCE_SECONDS < e.time) :
    initState.last_trigger_time = 0 ∧
    e.time ∈ (runLoop (pre ++ e :: post)).fired := by
  refine ⟨rfl, ?_⟩
  unfold runLoop
  rw [List.foldl_append]
  have hskip : pre.foldl loopStep initState = initState := by
    induction pre with
    | nil => rfl
    | cons p ps ih =>
      simp only [List.foldl_cons]
      rw [loopStep_no_match initState p (hpre p (by simp))]
      exact ih (fun e' he' => hpre e' (by simp [he']))
  rw [hskip]
  simp only [List.foldl_cons]
  have hfire : loopStep initState e =
      { last_trigger_time := e.time, fired := [e.time] } := by
    simp [loopStep, hm, initState, ht]
  rw [hfire]
  exact fired_mem_foldl post _ e.time (by simp)

/-- Witness for C4: after one non-match event and a match at `t = 5`
(5 > 2), the action has fired at `t = 5`. -/
theorem first_match_always_fires_witness :
    initState.last_trigger_time = 0 ∧
    (5 : ℚ) ∈ (runLoop ([⟨-1, 1⟩] ++ ⟨0, 5⟩ :: [])).fired :=
  first_match_always_fires [⟨-1, 1⟩] [] ⟨0, 5⟩ (by decide) (by decide)
    (by norm_num [DEBOUNCE_SECONDS])

/-- **C5.** A "no match" detection event (negative keyword index) has no
observable effect: a single such iteration leaves the state unchanged, and
any run consisting only of such events leaves the state unchanged,
regardless of how many occur — the action is never invoked and
`last_trigger_time` is untouched. -/
theorem no_match_has_no_effect :
    (∀ (s : LoopState) (e : DetectionEvent), e.keywordIndex < 0 →
      loopStep s e = s) ∧
    (∀ (es : List DetectionEvent) (s : LoopState),
      (∀ e ∈ es, e.keywordIndex < 0) → es.foldl loopStep s = s) := by
  constructor
  · exact loopStep_no_match
  · intro es
    induction es with
    | nil => intro s _; rfl
    | cons e es ih =>
      intro s h
      simp only [List.foldl_cons]
      rw [loopStep_no_match s e (h e (by simp))]
      exact ih s (fun e' he' => h e' (by simp [he']))

/-- Witness for C5: three consecutive no-match events leave the initial
state exactly as it was. -/
theorem no_match_has_no_effect_witness :
    ([⟨-1, 1⟩, ⟨-1, 2⟩, ⟨-1, 3⟩] : List DetectionEvent).foldl loopStep
      initState = initState :=
  no_match_has_no_effect.2 [⟨-1, 1⟩, ⟨-1, 2⟩, ⟨-1, 3⟩] initState (by decide)

/-! ## Loop teardown (the `finally` block, lines 219–222)

On loop exit (KeyboardInterrupt or any other propagating exception) the
script runs `recorder.stop()` then `porcupine.delete()` in a single
`finally` block.  We model the block as a list of calls executed in
order; a call that raises an exception propagates it, so the calls after
it are not attempted (standard Python semantics for statements inside a
`finally` suite). -/

/-- The two resource-release calls of the `finally` block. -/
inductive CleanupCall
  | stop
  | delete
  deriving DecidableEq, Repr

/-- The statements of the `finally` suite, in source order:
`recorder.stop()` then `porcupine.delete()`. -/
def finallyBody : List CleanupCall := [.stop, .delete]

/-- Sequential execution of a statement list where `raises c = true` means
call `c` raises: every call up to and including the first raising one is
attempted, the rest are skipped.  Returns the list of attempted calls. -/
def attemptedCalls (raises : CleanupCall → Bool) :
    List CleanupCall → List CleanupCall
  | [] => []
  | c :: rest =>
    c :: (if raises c then [] else attemptedCalls raises rest)

/-- The release calls attempted by the `finally` block, given which of
them raise. -/
def cleanupCalls (raises : CleanupCall → Bool) : List CleanupCall :=
  attemptedCalls raises finallyBody

/-- `recorder.stop()` raises; `porcupine.delete()` would not. -/
def stopRaisesOnly : CleanupCall → Bool
  | .stop => true
  | .delete => false

/-- `porcupine.delete()` raises; `recorder.stop()` does not. -/
def deleteRaisesOnly : CleanupCall → Bool
  | .stop => false
  | .delete => true

/-- **C6 counterexample.** If `recorder.stop()` raises, the `finally`
block never reaches `porcupine.delete()`: it is not the case that both
release calls are attempted even when one of them raises. -/
theorem cleanup_not_both_attempted_when_stop_raises :
    ¬(CleanupCall.stop ∈ cleanupCalls stopRaisesOnly ∧
      CleanupCall.delete ∈ cleanupCalls stopRaisesOnly) := by
  decide

/-- **C6 (amended).** On loop exit the `finally` block always attempts
`recorder.stop()`; `porcupine.delete()` is attempted exactly when
`recorder.stop()` does not raise — in particular both releases are
attempted even if `porcupine.delete()` itself raises, but an error raised
by `recorder.stop()` prevents the detector release from being attempted. -/
theorem cleanup_stop_then_delete (raises : CleanupCall → Bool) :
    CleanupCall.stop ∈ cleanupCalls raises ∧
    (raises .stop = false → cleanupCalls raises = [.stop, .delete]) ∧
    (raises .stop = true → cleanupCalls raises = [.stop]) := by
  refine ⟨by simp [cleanupCalls, attemptedCalls, finallyBody], ?_, ?_⟩
  · intro h
    simp [cleanupCalls, attemptedCalls, finallyBody, h]
  · intro h
    simp [cleanupCalls, attemptedCalls, finallyBody, h]

/-- Witness for C6 (amended): when only `porcupine.delete()` raises, both
release calls are attempted. -/
theorem cleanup_stop_then_delete_witness :
    cleanupCalls deleteRaisesOnly = [.stop, .delete] :=
  (cleanup_stop_then_delete deleteRaisesOnly).2.1 rfl

/-! ## `main`'s control flow before the loop (lines 81–203)

We embed the command-line arguments, the pieces of the external world the
control flow consults (`os.path.exists`, the `JUBILEE_KEYWORD_PATH`
environment variable, and whether the two external constructors raise),
the keyword-model selection of lines 131–167, and the sequence of
resource-lifecycle events `main` performs on each path. -/

/-- The parsed command-line arguments (lines 82–89).  `keyword_path` is
`Option String` because its default is `CUSTOM_KEYWORD_PATH`, which may be
`None`. -/
structure Args where
  list_devices : Bool
  device : Int
  sensitivity : ℚ
  access_key : String
  keyword_path : Option String
  use_jarvis : Bool
  deriving DecidableEq, Repr

/-- The ways `pvporcupine.create` can raise (lines 169–178): activation
error, invalid-argument error, or any other exception. -/
inductive PorcupineError
  | activation
  | invalidArgument
  | other
  deriving DecidableEq, Repr

/-- The external world as the control flow observes it: which paths exist
on disk, the value of the `JUBILEE_KEYWORD_PATH` environment variable, and
whether the detector / recorder constructors raise. -/
structure ExtWorld where
  pathExists : String → Bool
  customKeywordPath : Option String
  porcupineError : Option PorcupineError
  recorderError : Bool

/-- Which keyword model `pvporcupine.create` is called with, one
constructor per branch of lines 131–167. -/
inductive KeywordChoice
  | customArg (p : String)
  | jarvisFlag
  | customEnv (p : String)
  | jarvisDefault
  deriving DecidableEq, Repr

/-- Python truthiness-and-existence test `p and os.path.exists(p)` for an
optional path. -/
def pathUsable (w : ExtWorld) : Option String → Bool
  | none => false
  | some p => !(p == "") && w.pathExists p

/-- The keyword-selection logic of lines 131–167: a usable
`args.keyword_path` wins; else `--use-jarvis` selects the built-in
keyword; else a usable `CUSTOM_KEYWORD_PATH` from the environment is
used; else the built-in "Jarvis" keyword is the fallback. -/
def selectKeyword (w : ExtWorld) (a : Args) : KeywordChoice :=
  match a.keyword_path, pathUsable w a.keyword_path with
  | some p, true => .customArg p
  | _, _ =>
    if a.use_jarvis then .jarvisFlag
    else
      match w.customKeywordPath, pathUsable w w.customKeywordPath with
      | some p, true => .customEnv p
      | _, _ => .jarvisDefault

/-- The outcome of a call to `main` (up to entering the detection loop). -/
inductive MainResult
  | listedDevices
  | setupGuidance
  | activationError
  | invalidArgumentError
  | initErrorOther
  | recorderInitError
  | enteredLoop (kw : KeywordChoice)
  deriving DecidableEq, Repr

/-- Resource-lifecycle events `main` performs, in order. -/
inductive ResEvent
  | attemptDetectorInit
  | detectorCreated
  | detectorDeleted
  | attemptRecorderInit
  | recorderCreated
  deriving DecidableEq, Repr

/-- The control flow of `main` before the detection loop (lines 91–203):
`--list-devices` returns after enumerating devices; the exact placeholder
access key prints setup guidance and returns; otherwise the detector is
initialized (its three `except` clauses each report and return), then the
recorder (on failure the already-created detector is deleted and `main`
returns), and only then is the loop entered.  The second component is the
ordered list of resource-lifecycle events performed. -/
def mainControl (w : ExtWorld) (a : Args) : MainResult × List ResEvent :=
  if a.list_devices then (.listedDevices, [])
  else if a.access_key == "YOUR_ACCESS_KEY_HERE" then (.setupGuidance, [])
  else
    match w.porcupineError with
    | some .activation => (.activationError, [.attemptDetectorInit])
    | some .invalidArgument => (.invalidArgumentError, [.attemptDetectorInit])
    | some .other => (.initErrorOther, [.attemptDetectorInit])
    | none =>
      if w.recorderError then
        (.recorderInitError,
          [.attemptDetectorInit, .detectorCreated, .attemptRecorderInit,
            .detectorDeleted])
      else
        (.enteredLoop (selectKeyword w a),
          [.attemptDetectorInit, .detectorCreated, .attemptRecorderInit,
            .recorderCreated])

/-- A world in which `pvporcupine.create` would raise an activation
error (as it would for an empty or invalid access key). -/
def emptyKeyWorld : ExtWorld :=
  { pathExists := fun _ => false
    customKeywordPath := none
    porcupineError := some .activation
    recorderError := false }

/-- Arguments with an empty access key (e.g. `--access-key ""` or
`PICOVOICE_ACCESS_KEY` set to the empty string). -/
def emptyKeyArgs : Args :=
  { list_devices := false
    device := -1
    sensitivity := 8/10
    access_key := ""
    keyword_path := none
    use_jarvis := false }

/-- **C7 counterexample.** An empty access key does not trigger the
setup-guidance early return: the check on line 97 compares against the
exact placeholder string only, so with an empty key `main` proceeds to
attempt detector initialization (which then fails inside the `try`). -/
theorem empty_key_attempts_detector_init :
    (mainControl emptyKeyWorld emptyKeyArgs).1 ≠ .setupGuidance ∧
    .attemptDetectorInit ∈ (mainControl emptyKeyWorld emptyKeyArgs).2 := by
  decide

/-- **C7 (amended).** Given exactly the placeholder access key
`"YOUR_ACCESS_KEY_HERE"` (and not `--list-devices`), `main` prints setup
guidance and returns (exit code 0) before attempting detector
initialization: no detector or recorder resource is acquired and the loop
never starts.  (An empty access key instead proceeds to detector
initialization, whose failure is caught and reported.) -/
theorem placeholder_key_prints_guidance_and_returns
    (w : ExtWorld) (a : Args)
    (h1 : a.list_devices = false)
    (h2 : a.access_key = "YOUR_ACCESS_KEY_HERE") :
    mainControl w a = (.setupGuidance, []) := by
  simp [mainControl, h1, h2]

/-- Arguments still carrying the placeholder access key. -/
def placeholderArgs : Args :=
  { list_devices := false
    device := -1
    sensitivity := 8/10
    access_key := "YOUR_ACCESS_KEY_HERE"
    keyword_path := none
    use_jarvis := false }

/-- Witness for C7 (amended): with the placeholder key, `main` returns
with setup guidance and performs no resource-lifecycle event. -/
theorem placeholder_key_prints_guidance_and_returns_witness :
    mainControl emptyKeyWorld placeholderArgs = (.setupGuidance, []) :=
  placeholder_key_prints_guidance_and_returns emptyKeyWorld placeholderArgs
    rfl rfl

/-- **C8.** Any error during detector or recorder initialization is
fatal: `main` reports it and returns without entering the detection loop,
and every resource acquired so far is released — the detector, if it was
created, is deleted, and the recorder is never created. -/
theorem init_error_is_fatal (w : ExtWorld) (a : Args)
    (h1 : a.list_devices = false)
    (h2 : a.access_key ≠ "YOUR_ACCESS_KEY_HERE")
    (h3 : w.porcupineError ≠ none ∨ w.recorderError = true) :
    (∀ kw, (mainControl w a).1 ≠ .enteredLoop kw) ∧
    (.detectorCreated ∈ (mainControl w a).2 →
      .detectorDeleted ∈ (mainControl w a).2) ∧
    .recorderCreated ∉ (mainControl w a).2 := by
  have hk : (a.access_key == "YOUR_ACCESS_KEY_HERE") = false :=
    beq_eq_false_iff_ne.mpr h2
  rcases hpe : w.porcupineError with _ | e
  · rcases h3 with h3 | h3
    · exact absurd hpe h3
    · simp [mainControl, h1, hk, hpe, h3]
  · cases e <;> simp [mainControl, h1, hk, hpe]

/-- A world in which the detector is created fine but the recorder
constructor raises (e.g. an unavailable audio device). -/
def recorderFailWorld : ExtWorld :=
  { pathExists := fun _ => false
    customKeywordPath := none
    porcupineError := none
    recorderError := true }

/-- Ordinary arguments with a real-looking access key. -/
def normalArgs : Args :=
  { list_devices := false
    device := -1
    sensitivity := 8/10
    access_key := "some-valid-key"
    keyword_path := none
    use_jarvis := false }

/-- Witness for C8: when the recorder constructor raises after the
detector was created, the loop is not entered, the detector is deleted,
and no recorder is ever created. -/
theorem init_error_is_fatal_witness :
    (mainControl recorderFailWorld normalArgs).1 ≠
      .enteredLoop .jarvisDefault ∧
    .detectorDeleted ∈ (mainControl recorderFailWorld normalArgs).2 ∧
    .recorderCreated ∉ (mainControl recorderFailWorld normalArgs).2 := by
  have h := init_error_is_fatal recorderFailWorld normalArgs rfl
    (by decide) (Or.inr rfl)
  exact ⟨h.1 _, h.2.1 (by decide), h.2.2⟩

/-- **C9.** With `--list-devices`, `main` enumerates the audio devices
and returns immediately: no resource-lifecycle event occurs, so no
detector or recorder is created, the detection loop never starts, and the
action is never invoked. -/
theorem list_devices_returns_immediately (w : ExtWorld) (a : Args)
    (h : a.list_devices = true) :
    mainControl w a = (.listedDevices, []) := by
  simp [mainControl, h]

/-- Arguments invoking `--list-devices`. -/
def listDevicesArgs : Args :=
  { list_devices := true
    device := -1
    sensitivity := 8/10
    access_key := "some-valid-key"
    keyword_path := none
    use_jarvis := false }

/-- Witness for C9: with `--list-devices`, the result is the device
listing and the event trace is empty. -/
theorem list_devices_returns_immediately_witness :
    mainControl emptyKeyWorld listDevicesArgs = (.listedDevices, []) :=
  list_devices_returns_immediately emptyKeyWorld listDevicesArgs rfl

/-- **C10.** A `--keyword-path` (or environment-provided keyword path)
naming a nonexistent file is silently ignored rather than reported as an
error: with `--use-jarvis` absent, keyword selection falls back to the
environment variable's custom-model path when that file exists, and
otherwise to the built-in "Jarvis" keyword; under either fallback, when
initialization succeeds `main` still enters the detection loop with the
fallback wake word. -/
theorem missing_keyword_path_silently_falls_back
    (w : ExtWorld) (a : Args) (p : String)
    (hp : a.keyword_path = some p)
    (hne : w.pathExists p = false)
    (hj : a.use_jarvis = false) :
    (∀ q, w.customKeywordPath = some q → q ≠ "" → w.pathExists q = true →
      selectKeyword w a = .customEnv q) ∧
    ((∀ q, w.customKeywordPath = some q → q = "" ∨ w.pathExists q = false) →
      selectKeyword w a = .jarvisDefault) ∧
    (a.list_devices = false → a.access_key ≠ "YOUR_ACCESS_KEY_HERE" →
      w.porcupineError = none → w.recorderError = false →
      (mainControl w a).1 = .enteredLoop (selectKeyword w a)) := by
  have hu : pathUsable w a.keyword_path = false := by
    rw [hp]; simp [pathUsable, hne]
  refine ⟨?_, ?_, ?_⟩
  · intro q hq hq' hq''
    have hq0 : (q == "") = false := beq_eq_false_iff_ne.mpr hq'
    simp [selectKeyword, hp, hne, hj, hq, pathUsable, hq0, hq'']
  · intro hfb
    rcases hck : w.customKeywordPath with _ | q
    · simp [selectKeyword, hp, hne, hj, hck, pathUsable]
    · rcases hfb q hck with rfl | hf
      · simp [selectKeyword, hp, hne, hj, hck, pathUsable]
      · simp [selectKeyword, hp, hne, hj, hck, pathUsable, hf]
  · intro h1 h2 h3 h4
    have hk : (a.access_key == "YOUR_ACCESS_KEY_HERE") = false :=
      beq_eq_false_iff_ne.mpr h2
    simp [mainControl, h1, hk, h3, h4]

/-- A world whose environment variable names an existing model file,
while the file the `--keyword-path` argument names does not exist. -/
def typoPathWorld : ExtWorld :=
  { pathExists := fun s => s == "/env/hey_jubilee.ppn"
    customKeywordPath := some "/env/hey_jubilee.ppn"
    porcupineError := none
    recorderError := false }

/-- Arguments with a mistyped `--keyword-path`. -/
def typoPathArgs : Args :=
  { list_devices := false
    device := -1
    sensitivity := 8/10
    access_key := "some-valid-key"
    keyword_path := some "/bad/typo.ppn"
    use_jarvis := false }

/-- Witness for C10: a mistyped `--keyword-path` silently falls back to
the existing environment-variable model, and `main` enters the loop with
that fallback wake word. -/
theorem missing_keyword_path_silently_falls_back_witness :
    selectKeyword typoPathWorld typoPathArgs =
      .customEnv "/env/hey_jubilee.ppn" ∧
    (mainControl typoPathWorld typoPathArgs).1 =
      .enteredLoop (selectKeyword typoPathWorld typoPathArgs) := by
  have h := missing_keyword_path_silently_falls_back typoPathWorld
    typoPathArgs "/bad/typo.ppn" rfl rfl rfl
  exact ⟨h.1 "/env/hey_jubilee.ppn" rfl (by decide) (by decide),
    h.2.2 rfl (by decide) rfl rfl⟩

end HeyJubilee
